import Mathlib

/- Verification development for the datagenesis client-side real-time
   activity monitors.  The definitions below are a shallow embedding of
   the TypeScript sources:

   - src/components/unified/UnifiedRealTimeMonitor.tsx  (the unified monitor)
   - the SimpleRealTimeMonitor component                 (second file, part_000)
   - the RealTimeMonitor component                       (third file, part_000)
   - src/components/EnhancedRealTimeMonitor.tsx          (filter only)

   JavaScript strings are modelled as Lean String, JavaScript numbers on the
   relevant integral code paths as Int/Nat, undefined-able fields as Option,
   and the regular expressions of the free-text pattern tables through a
   small executable backtracking matcher that mirrors the JavaScript regex
   semantics (leftmost search, greedy quantifiers with backtracking,
   ordered alternation, numbered capture groups). -/

namespace DataGenesis

/-- Membership in the JavaScript regex class backslash-s, also the character
set removed by String.prototype.trim (whitespace and line terminators). -/
def jsSpace (c : Char) : Bool :=
  [' ', '\t', '\n', '\r', '\x0b', '\x0c',
   ' ', ' ', ' ', ' ', ' ', ' ', ' ',
   ' ', ' ', ' ', ' ', ' ', ' ',
   ' ', ' ', ' ', ' ', '　', '﻿'].contains c

/-- Model of String.prototype.toLowerCase restricted to the ASCII range
(all inputs exercised by the monitors are ASCII-cased). -/
def jsToLower (s : String) : String := ⟨s.data.map Char.toLower⟩

/-- Model of String.prototype.trim: strip jsSpace characters at both ends. -/
def jsTrim (s : String) : String :=
  ⟨((s.data.dropWhile fun c => jsSpace c).reverse.dropWhile fun c => jsSpace c).reverse⟩

/-- Does pat occur at the very start of s. -/
def headMatches : List Char → List Char → Bool
  | [], _ => true
  | _ :: _, [] => false
  | c :: cs, d :: ds => c == d && headMatches cs ds

/-- Does pat occur contiguously anywhere inside s. -/
def subAt (pat : List Char) : List Char → Bool
  | [] => headMatches pat []
  | c :: rest => headMatches pat (c :: rest) || subAt pat rest

/-- Model of hay.includes(pat): contiguous substring test. -/
def containsSub (hay pat : String) : Bool :=
  subAt pat.data hay.data

/-- Model of the JavaScript expression a-or-else-b on a possibly undefined
string a: undefined and the empty string are falsy. -/
def jsOrStr (a : Option String) (b : String) : String :=
  match a with
  | some s => if s = "" then b else s
  | none => b

/-- Model of parseInt on a string of decimal digits (the only shape the
monitors feed it, coming from a digit-class capture group). -/
def parseIntStr (s : String) : Int :=
  Int.ofNat (s.data.foldl (fun n c => n * 10 + (c.toNat - 48)) 0)

/-- Character classes occurring in the regex tables of the monitors. -/
inductive CClass where
  | digit
  | space
  | wordOrSpace
  | notColon
  | dot
  | colonOrSpace
  | colonOrDash
  deriving DecidableEq

/-- Which characters each class accepts, following the JavaScript classes
backslash-d, backslash-s, [backslash-w backslash-s], [^:], the dot
(anything except a line terminator), [: backslash-s] and [:-]. -/
def CClass.mem : CClass → Char → Bool
  | .digit, c => c.isDigit
  | .space, c => jsSpace c
  | .wordOrSpace, c => c.isAlphanum || c == '_' || jsSpace c
  | .notColon, c => c != ':'
  | .dot, c => !(c == '\n' || c == '\r' || c == ' ' || c == ' ')
  | .colonOrSpace, c => c == ':' || jsSpace c
  | .colonOrDash, c => c == ':' || c == '-'

/-- Abstract syntax of the regular expressions used by the monitors.
Quantifiers only ever apply to single-character classes in those tables,
which the syntax reflects; ci marks a case-insensitive literal (the i
flag of the source regex). -/
inductive Regex where
  | eps
  | one (t : CClass)
  | lit (ci : Bool) (s : List Char)
  | cat (a b : Regex)
  | alt (a b : Regex)
  | star (t : CClass)
  | plus (t : CClass)
  | group (r : Regex)
  deriving DecidableEq

/-- Character comparison, optionally case-insensitive (ASCII folding). -/
def ciEq (ci : Bool) (a b : Char) : Bool :=
  if ci then a.toLower == b.toLower else a == b

/-- Match a literal at the head of the input, returning the rest. -/
def litMatch (ci : Bool) : List Char → List Char → Option (List Char)
  | [], s => some s
  | _ :: _, [] => none
  | c :: cs, d :: s => if ciEq ci c d then litMatch ci cs s else none

/-- Length of the maximal head run of characters in a class. -/
def classRun (t : CClass) : List Char → Nat
  | [] => 0
  | c :: s => if t.mem c then classRun t s + 1 else 0

/-- Greedy backtracking for a starred class: try consuming i characters,
then i - 1, down to 0 (the order the JavaScript engine uses). -/
def starTry (k : List Char → Option (List String)) (s : List Char) :
    Nat → Option (List String)
  | 0 => k s
  | i + 1 =>
    match k (s.drop (i + 1)) with
    | some r => some r
    | none => starTry k s i

/-- Greedy backtracking for a plus-quantified class: at least one character
must be consumed. -/
def plusTry (k : List Char → Option (List String)) (s : List Char) :
    Nat → Option (List String)
  | 0 => none
  | i + 1 =>
    match k (s.drop (i + 1)) with
    | some r => some r
    | none => plusTry k s i

/-- Continuation-passing matcher: attempt the regex at the head of s with
the accumulated capture groups g, handing every successful split to k.
Backtracking order mirrors the JavaScript engine: ordered alternation,
greedy quantifiers. -/
def mtch : Regex → List Char → List String →
    (List Char → List String → Option (List String)) → Option (List String)
  | .eps, s, g, k => k s g
  | .one t, s, g, k =>
    match s with
    | [] => none
    | c :: s' => if t.mem c then k s' g else none
  | .lit ci l, s, g, k =>
    match litMatch ci l s with
    | some s' => k s' g
    | none => none
  | .cat a b, s, g, k => mtch a s g fun s' g' => mtch b s' g' k
  | .alt a b, s, g, k =>
    match mtch a s g k with
    | some r => some r
    | none => mtch b s g k
  | .star t, s, g, k => starTry (fun s' => k s' g) s (classRun t s)
  | .plus t, s, g, k => plusTry (fun s' => k s' g) s (classRun t s)
  | .group r, s, g, k =>
    mtch r s g fun s' g' => k s' (g' ++ [⟨s.take (s.length - s'.length)⟩])

/-- Unanchored search as performed by String.prototype.match without the g
flag: try each start position from the left, return the captures of the
first successful one. -/
def searchFrom (r : Regex) : List Char → Option (List String)
  | [] => mtch r [] [] fun _ g => some g
  | c :: s =>
    match mtch r (c :: s) [] fun _ g => some g with
    | some g => some g
    | none => searchFrom r s

/-- Search a Lean string. -/
def searchStr (r : Regex) (s : String) : Option (List String) :=
  searchFrom r s.data

/-- Capture group i of a match result, 1-indexed like match[i]. -/
def grp (g : List String) (i : Nat) : String :=
  (g.get? (i - 1)).getD ""

/-- Concatenation of a regex list. -/
def rcat (l : List Regex) : Regex := l.foldr Regex.cat Regex.eps

/-- Case-sensitive literal. -/
def rlit (s : String) : Regex := Regex.lit false s.data

/-- Case-insensitive literal. -/
def rlitCI (s : String) : Regex := Regex.lit true s.data

/-- Ordered alternation of a regex list. -/
def ralts : List Regex → Regex
  | [] => Regex.eps
  | [r] => r
  | r :: rs => Regex.alt r (ralts rs)

/-- Normalized field set produced for one inbound event, mirroring the
logData objects the monitors build: every field is optional, tag holds the
type property the pattern branches attach to the payload. -/
structure LogData where
  message : Option String := none
  step : Option String := none
  progress : Option Int := none
  agent : Option String := none
  status : Option String := none
  level : Option String := none
  tag : Option String := none
  deriving DecidableEq

/- The UnifiedRealTimeMonitor source file stores its status glyphs in a
mojibake form (the original emoji were decoded as mac-roman and re-encoded
as UTF-8); the file is self-consistent, comparing against the same mojibake
sequences it matches.  The constants below are the exact character
sequences present in that file. -/

/-- Success marker text of UnifiedRealTimeMonitor (mojibake of U+2705). -/
def mjSuccess : String := "\u201A\u00FA\u00D6"

/-- In-progress marker text of UnifiedRealTimeMonitor (mojibake of U+1F504). -/
def mjRefresh : String := "\uF8FF\u00FC\u00EE\u00D1"

/-- Failure marker text of UnifiedRealTimeMonitor (mojibake of U+274C). -/
def mjCross : String := "\u201A\u00F9\u00E5"

/-- Warning marker text of UnifiedRealTimeMonitor (mojibake of U+26A0 U+FE0F). -/
def mjWarn : String := "\u201A\u00F6\u2020\u00D4\u220F\u00E8"

/-- Robot marker text of UnifiedRealTimeMonitor (mojibake of U+1F916). -/
def mjRobot : String := "\uF8FF\u00FC\u00A7\u00F1"

/-- Brain marker text of UnifiedRealTimeMonitor (mojibake of U+1F9E0). -/
def mjBrain : String := "\uF8FF\u00FC\u00DF\u2020"

/-- Lock marker text of UnifiedRealTimeMonitor (mojibake of U+1F512). -/
def mjLock : String := "\uF8FF\u00FC\u00EE\u00ED"

/-- Scale marker text of UnifiedRealTimeMonitor (mojibake of U+2696 U+FE0F). -/
def mjScale : String := "\u201A\u00F6\u00F1\u00D4\u220F\u00E8"

/-- Link marker text of UnifiedRealTimeMonitor (mojibake of U+1F517). -/
def mjLink : String := "\uF8FF\u00FC\u00EE\u00F3"

/-- Target marker text of UnifiedRealTimeMonitor (mojibake of U+1F3AF). -/
def mjTarget : String := "\uF8FF\u00FC\u00E9\u00D8"

/-- Bracketed-progress pattern, shared verbatim by all monitor variants. -/
def progressRx : Regex :=
  rcat [rlit "[", Regex.group (Regex.plus CClass.digit), rlit "%]",
        Regex.star CClass.space, Regex.group (Regex.plus CClass.notColon),
        rlit ":", Regex.star CClass.space, Regex.group (Regex.plus CClass.dot)]

/-- Marker-prefixed agent pattern of the unified monitor (the ten mojibake
glyph alternatives, in source order). -/
def agentRxU : Regex :=
  rcat [Regex.group (ralts [rlit mjSuccess, rlit mjRefresh, rlit mjCross,
          rlit mjWarn, rlit mjRobot, rlit mjBrain, rlit mjLock, rlit mjScale,
          rlit mjLink, rlit mjTarget]),
        Regex.star CClass.space, Regex.group (Regex.plus CClass.notColon),
        rlit ":", Regex.star CClass.space, Regex.group (Regex.plus CClass.dot)]

/-- Gemini pattern of the unified monitor. -/
def geminiRxU : Regex :=
  rcat [rlitCI "Gemini", Regex.plus CClass.space,
        Regex.group (Regex.plus CClass.wordOrSpace),
        rlit ":", Regex.star CClass.space, Regex.group (Regex.plus CClass.dot)]

/-- System pattern of the unified monitor. -/
def systemRxU : Regex :=
  rcat [rlitCI "System", Regex.plus CClass.space,
        Regex.group (Regex.plus CClass.wordOrSpace),
        rlit ":", Regex.star CClass.space, Regex.group (Regex.plus CClass.dot)]

/-- Error pattern of the unified monitor. -/
def errorRxU : Regex :=
  rcat [Regex.group (ralts [rlitCI "Error", rlitCI "Failed", rlitCI "Exception"]),
        rlit ":", Regex.star CClass.space, Regex.group (Regex.plus CClass.dot)]

/-- Completion pattern of the unified monitor. -/
def completionRxU : Regex :=
  rcat [Regex.group (ralts [rlitCI "Completed", rlitCI "Finished", rlitCI "Done"]),
        rlit ":", Regex.star CClass.space, Regex.group (Regex.plus CClass.dot)]

/-- One row of a free-text pattern table: the regex and the extractor run
on its captures (the extractor also receives the whole raw message, which
the fallback-style branches consult). -/
def PatternRow : Type := Regex × (List String → String → LogData)

/-- First-match dispatch over an ordered pattern table, as performed by the
for-match-break loops of the monitors: rows are tried strictly in order and
only the first row whose regex matches contributes. -/
def runPatterns : List PatternRow → String → Option LogData
  | [], _ => none
  | (rx, ex) :: ps, msg =>
    match searchStr rx msg with
    | some g => some (ex g msg)
    | none => runPatterns ps msg

/-- Ordered pattern table of UnifiedRealTimeMonitor (object entries in
source order: progress, agent, gemini, system, error, completion).  The
system row is handled by the default switch branch in the source, which
stores match[2] or else match[1] or else the whole message. -/
def unifiedTable : List PatternRow :=
  [(progressRx, fun g _ =>
      { progress := some (parseIntStr (grp g 1)), step := some (jsTrim (grp g 2)),
        message := some (jsTrim (grp g 3)), tag := some "progress" }),
   (agentRxU, fun g _ =>
      { status := some (grp g 1), agent := some (jsTrim (grp g 2)),
        message := some (jsTrim (grp g 3)), tag := some "agent" }),
   (geminiRxU, fun g _ =>
      { agent := some "Gemini AI", status := some (grp g 1),
        message := some (jsTrim (grp g 2)), tag := some "gemini" }),
   (systemRxU, fun g msg =>
      { message := some (jsOrStr (some (grp g 2)) (jsOrStr (some (grp g 1)) msg)),
        tag := some "system" }),
   (errorRxU, fun g _ =>
      { level := some "error", message := some (jsTrim (grp g 2)),
        tag := some "error" }),
   (completionRxU, fun g _ =>
      { level := some "success", message := some (jsTrim (grp g 2)),
        tag := some "completion" })]

/-- Free-text normalization of the unified monitor: first matching pattern
wins, an unmatched message is kept whole with the system tag. -/
def normalizeFreetextU (msg : String) : LogData :=
  (runPatterns unifiedTable msg).getD { message := some msg, tag := some "system" }

/-- Classified activity record of the unified monitor, minus the id and
timestamp (assigned from the wall clock and a random suffix at insert time,
not modelled) and the passthrough metadata map. -/
structure ActivityRec where
  type : String
  status : String
  message : String
  agent : String
  level : String
  progress : Option Int := none
  deriving DecidableEq

/-- Transliteration of detectActivityType of UnifiedRealTimeMonitor. -/
def detectActivityType (d : LogData) : String :=
  let message := jsToLower (jsOrStr d.message "")
  let step := jsToLower (jsOrStr d.step "")
  let ty := jsToLower (jsOrStr d.tag "")
  if ty == "gemini" || containsSub message "gemini" || containsSub step "gemini" then "gemini_call"
  else if ty == "agent" || containsSub message "agent" then "agent_response"
  else if containsSub step "initialization" || containsSub message "initializing" then "initialization"
  else if containsSub step "domain" || containsSub message "domain" then "domain_analysis"
  else if containsSub step "privacy" || containsSub message "privacy" then "privacy_assessment"
  else if containsSub step "bias" || containsSub message "bias" then "bias_detection"
  else if containsSub step "relationship" || containsSub message "relationship" then "relationship_mapping"
  else if containsSub step "quality" || containsSub message "quality" then "quality_planning"
  else if containsSub step "generation" || containsSub message "generating" then "data_generation"
  else if containsSub step "validation" || containsSub message "validating" then "quality_validation"
  else if containsSub step "assembly" || containsSub message "assembling" then "final_assembly"
  else if containsSub step "completion" || containsSub message "completed" then "completion"
  else if d.progress == some (-1) || containsSub message "error" || containsSub message "failed" then "error"
  else "system"

/-- Transliteration of detectStatus of UnifiedRealTimeMonitor (an absent
progress field fails every numeric comparison, as undefined does in
JavaScript). -/
def detectStatus (d : LogData) : String :=
  if d.progress == some 100 then "completed"
  else if d.progress == some (-1) then "error"
  else if (match d.progress with | some p => decide (0 < p) | none => false) then "in_progress"
  else if d.status == some mjSuccess then "completed"
  else if d.status == some mjCross then "error"
  else if d.status == some mjWarn then "fallback"
  else if d.level == some "error" then "error"
  else if d.level == some "success" then "completed"
  else "started"

/-- Transliteration of detectAgent of UnifiedRealTimeMonitor; an explicit
truthy agent field wins, otherwise the keyword cascade runs. -/
def detectAgent (d : LogData) : String :=
  let a := jsOrStr d.agent ""
  if a != "" then a
  else
    let message := jsToLower (jsOrStr d.message "")
    let step := jsToLower (jsOrStr d.step "")
    if containsSub message "domain expert" || containsSub step "domain" then "Domain Expert"
    else if containsSub message "privacy agent" || containsSub step "privacy" then "Privacy Agent"
    else if containsSub message "bias detector" || containsSub step "bias" then "Bias Detector"
    else if containsSub message "quality agent" || containsSub step "quality" then "Quality Agent"
    else if containsSub message "relationship agent" || containsSub step "relationship" then "Relationship Agent"
    else if containsSub message "gemini" || containsSub message "2.0 flash" then "Gemini AI"
    else if containsSub message "ollama" then "Ollama"
    else "System"

/-- Transliteration of detectLevel of UnifiedRealTimeMonitor. -/
def detectLevel (d : LogData) : String :=
  let l := jsOrStr d.level ""
  if l != "" then l
  else if d.progress == some (-1) || d.status == some mjCross then "error"
  else if d.progress == some 100 || d.status == some mjSuccess then "success"
  else if d.status == some mjWarn then "warning"
  else "info"

/-- Record assembly of the unified monitor: classification of one
normalized field set (the newActivity object literal). -/
def mkRecord (d : LogData) : ActivityRec :=
  { type := detectActivityType d, status := detectStatus d,
    message := jsOrStr d.message "Processing...",
    agent := detectAgent d, level := detectLevel d,
    progress := d.progress }

/-- Inbound transport event: the discriminator (lastMessage.type in the
source) and the optional data payload. -/
structure WsMessage where
  kind : String
  data : Option LogData := none
  deriving DecidableEq

/-- Event normalization of the unified monitor: a generation_update event
with a payload passes the payload through; otherwise a truthy free-text
message is run through the pattern table; anything else yields no field
set (and hence no record). -/
def normalizeEventU (m : WsMessage) : Option LogData :=
  if m.kind == "generation_update" && m.data.isSome then m.data
  else
    match m.data with
    | some d =>
      match d.message with
      | some s => if s == "" then none else some (normalizeFreetextU s)
      | none => none
    | none => none

/-- Bounded prepend of the unified monitor buffer: the setActivities
updater newActivity-cons-prev.slice(0, maxLogs - 1). -/
def bufAppend (C : Nat) (buf : List ActivityRec) (r : ActivityRec) : List ActivityRec :=
  r :: buf.take (C - 1)

/-- Buffer contents after a sequence of accepted appends, starting empty. -/
def bufOfList (C : Nat) (rs : List ActivityRec) : List ActivityRec :=
  rs.foldl (bufAppend C) []

/-- Progress-gauge update of the unified monitor: overwrite only when the
field set carries a progress value that is at least 0. -/
def gaugeStepU (g : Int) (p : Option Int) : Int :=
  match p with
  | some v => if 0 ≤ v then v else g
  | none => g

/-- Mutable state owned by one mounted unified monitor. -/
structure MonitorState where
  activities : List ActivityRec := []
  currentProgress : Int := 0
  isPaused : Bool := false
  deriving DecidableEq

/-- Processing of one inbound event by the unified monitor: the pause gate
is checked synchronously first; an event that does not normalize is
dropped; otherwise the classified record is prepended with eviction and
the gauge is updated. -/
def handleMessageU (C : Nat) (s : MonitorState) (m : WsMessage) : MonitorState :=
  if s.isPaused then s
  else
    match normalizeEventU m with
    | none => s
    | some d =>
      { s with activities := bufAppend C s.activities (mkRecord d),
               currentProgress := gaugeStepU s.currentProgress d.progress }

/-- Operations the display layer can trigger on a monitor instance. -/
inductive MonOp where
  | deliver (m : WsMessage)
  | pause
  | resume
  | clear
  deriving DecidableEq

/-- Flag and list transitions of the unified monitor, each as its single
state write: deliver as one handler execution, pause and resume as the
setIsPaused writes, clear as the clearLogs writes.  The dependency-driven
re-execution of the message effect around those writes is modelled
separately by stepReact below. -/
def stepU (C : Nat) (s : MonitorState) : MonOp → MonitorState
  | .deliver m => handleMessageU C s m
  | .pause => { s with isPaused := true }
  | .resume => { s with isPaused := false }
  | .clear => { s with activities := [], currentProgress := 0 }

/-- Activity record of the SimpleRealTimeMonitor variant (no level field). -/
structure SimpleRec where
  type : String
  status : String
  message : String
  agent : String
  progress : Option Int := none
  deriving DecidableEq

/-- Transliteration of detectType of SimpleRealTimeMonitor. -/
def detectTypeS (d : LogData) : String :=
  let message := jsToLower (jsOrStr d.message "")
  let step := jsToLower (jsOrStr d.step "")
  if containsSub step "domain" || containsSub message "domain" then "domain_analysis"
  else if containsSub step "privacy" || containsSub message "privacy" then "privacy_assessment"
  else if containsSub step "bias" || containsSub message "bias" then "bias_detection"
  else if containsSub step "generation" || containsSub message "generating" then "data_generation"
  else if containsSub step "quality" || containsSub message "quality" then "quality_validation"
  else "system"

/-- Transliteration of detectStatus of SimpleRealTimeMonitor. -/
def detectStatusS (d : LogData) : String :=
  if d.progress == some 100 then "completed"
  else if d.progress == some (-1) then "error"
  else if (match d.progress with | some p => decide (0 < p) | none => false) then "in_progress"
  else "started"

/-- Transliteration of detectAgent of SimpleRealTimeMonitor. -/
def detectAgentS (d : LogData) : String :=
  let message := jsToLower (jsOrStr d.message "")
  let step := jsToLower (jsOrStr d.step "")
  if containsSub message "domain" || containsSub step "domain" then "Domain Expert"
  else if containsSub message "privacy" || containsSub step "privacy" then "Privacy Agent"
  else if containsSub message "bias" || containsSub step "bias" then "Bias Detector"
  else if containsSub message "quality" || containsSub step "quality" then "Quality Agent"
  else "System"

/-- Record assembly of SimpleRealTimeMonitor. -/
def mkRecordS (d : LogData) : SimpleRec :=
  { type := detectTypeS d, status := detectStatusS d,
    message := jsOrStr d.message "Processing...",
    agent := detectAgentS d, progress := d.progress }

/-- Event normalization of SimpleRealTimeMonitor: a generation_update
payload passes through; a raw_message with a truthy message is matched
against the bracketed-progress pattern only; everything else yields no
field set. -/
def normalizeEventS (m : WsMessage) : Option LogData :=
  if m.kind == "generation_update" && m.data.isSome then m.data
  else if m.kind == "raw_message" then
    match m.data with
    | some d =>
      match d.message with
      | some s =>
        if s == "" then none
        else
          match searchStr progressRx s with
          | some g =>
            some { progress := some (parseIntStr (grp g 1)),
                   step := some (jsTrim (grp g 2)),
                   message := some (jsTrim (grp g 3)) }
          | none => none
      | none => none
    | none => none
  else none

/-- Mutable state owned by one mounted SimpleRealTimeMonitor. -/
structure SimpleState where
  activities : List SimpleRec := []
  currentProgress : Int := 0
  isPaused : Bool := false
  deriving DecidableEq

/-- Processing of one inbound event by SimpleRealTimeMonitor.  Its buffer
capacity is the literal 50 (prev.slice(0, 49)) and, unlike the unified
monitor, the gauge is overwritten whenever a progress field is present,
without the at-least-0 guard. -/
def handleMessageS (s : SimpleState) (m : WsMessage) : SimpleState :=
  if s.isPaused then s
  else
    match normalizeEventS m with
    | none => s
    | some d =>
      { s with activities := mkRecordS d :: s.activities.take 49,
               currentProgress := d.progress.getD s.currentProgress }

/-- Gemini pattern of the RealTimeMonitor variant. -/
def geminiRxR : Regex :=
  rcat [rlitCI "Gemini", Regex.plus CClass.space,
        Regex.group (ralts [rcat [rlit "2.0", Regex.plus CClass.space, rlitCI "Flash"],
                            rlitCI "AI", rlitCI "Model"]),
        Regex.star CClass.space, Regex.one CClass.colonOrDash,
        Regex.star CClass.space, Regex.group (Regex.plus CClass.dot)]

/-- Marker-action pattern of the RealTimeMonitor variant (true emoji in
that file, each a single code point, the warning sign followed by the
variation selector U+FE0F). -/
def agentActionRxR : Regex :=
  rcat [Regex.group (ralts [rlit "🤖", rlit "🧠", rlit "🔒", rlit "⚖️",
                            rlit "🔗", rlit "🎯", rlit "📊"]),
        Regex.star CClass.space, Regex.group (Regex.plus CClass.notColon),
        rlit ":", Regex.star CClass.space, Regex.group (Regex.plus CClass.dot)]

/-- Marker-status pattern of the RealTimeMonitor variant. -/
def agentStatusRxR : Regex :=
  rcat [Regex.group (ralts [rlit "✅", rlit "🔄", rlit "❌", rlit "⚠️", rlit "🎯"]),
        Regex.star CClass.space, Regex.group (Regex.plus CClass.notColon),
        Regex.plus CClass.space, rlitCI "Agent", rlit ":",
        Regex.star CClass.space, Regex.group (Regex.plus CClass.dot)]

/-- Labeled-agent pattern of the RealTimeMonitor variant for a two-word
agent label followed by a colon-or-space separator run. -/
def labeledRx (w1 w2 : String) : Regex :=
  rcat [rlitCI w1, Regex.plus CClass.space, rlitCI w2,
        Regex.plus CClass.colonOrSpace, Regex.group (Regex.plus CClass.dot)]

/-- System pattern of the RealTimeMonitor variant. -/
def systemRxR : Regex :=
  rcat [rlitCI "System", Regex.plus CClass.colonOrSpace,
        Regex.group (Regex.plus CClass.dot)]

/-- Error pattern of the RealTimeMonitor variant. -/
def errorRxR : Regex :=
  rcat [Regex.group (ralts [rlitCI "Error", rlitCI "Failed", rlitCI "Exception"]),
        Regex.plus CClass.colonOrSpace, Regex.group (Regex.plus CClass.dot)]

/-- Extractor of a labeled-agent row of the RealTimeMonitor table. -/
def labeledEx (agent tag : String) : List String → String → LogData :=
  fun g _ => { agent := some agent, message := some (jsTrim (grp g 1)), tag := some tag }

/-- Ordered pattern table of the RealTimeMonitor variant, in source order:
progress, agent_action, gemini, agent_status, the five labeled agents,
system, error.  The emoji capture of agent_action feeds only the metadata
map in the source and is not modelled; the system row is handled by the
default switch branch (match[1] or else match[2] or else the message). -/
def rtmTable : List PatternRow :=
  [(progressRx, fun g _ =>
      { progress := some (parseIntStr (grp g 1)), step := some (jsTrim (grp g 2)),
        message := some (jsTrim (grp g 3)), tag := some "progress" }),
   (agentActionRxR, fun g _ =>
      { agent := some (jsTrim (grp g 2)), message := some (jsTrim (grp g 3)),
        tag := some "agent_action" }),
   (geminiRxR, fun g _ =>
      { agent := some "Gemini AI", message := some (jsTrim (grp g 2)),
        tag := some "gemini" }),
   (agentStatusRxR, fun g _ =>
      { status := some (grp g 1), agent := some (jsTrim (grp g 2)),
        message := some (jsTrim (grp g 3)), tag := some "agent" }),
   (labeledRx "Domain" "Expert", labeledEx "Domain Expert" "domain_analysis"),
   (labeledRx "Privacy" "Agent", labeledEx "Privacy Agent" "privacy_assessment"),
   (labeledRx "Bias" "Detector", labeledEx "Bias Detector" "bias_detection"),
   (labeledRx "Quality" "Agent", labeledEx "Quality Agent" "quality_planning"),
   (labeledRx "Relationship" "Agent", labeledEx "Relationship Agent" "relationship_mapping"),
   (systemRxR, fun g msg =>
      { message := some (jsOrStr (some (grp g 1)) (jsOrStr (some (grp g 2)) msg)),
        tag := some "system" }),
   (errorRxR, fun g _ =>
      { message := some (jsTrim (grp g 2)), tag := some "error",
        level := some "error" })]

/-- Free-text normalization of the RealTimeMonitor variant: first matching
pattern wins, an unmatched message falls back to a system/info field set
keeping the whole text. -/
def normalizeFreetextR (msg : String) : LogData :=
  (runPatterns rtmTable msg).getD
    { message := some msg, tag := some "system", level := some "info" }

/-- Transliteration of detectLogType of the RealTimeMonitor variant: a
truthy type tag on the field set is returned unchanged, else the keyword
and agent cascade runs. -/
def detectLogType (d : LogData) : String :=
  let t := jsOrStr d.tag ""
  if t != "" then t
  else
    let message := jsToLower (jsOrStr d.message "")
    let step := jsToLower (jsOrStr d.step "")
    if containsSub step "initialization" || containsSub message "initializing" then "initialization"
    else if containsSub step "domain" || containsSub message "domain" || d.agent == some "Domain Expert" then "domain_analysis"
    else if containsSub step "privacy" || containsSub message "privacy" || d.agent == some "Privacy Agent" then "privacy_assessment"
    else if containsSub step "bias" || containsSub message "bias" || d.agent == some "Bias Detector" then "bias_detection"
    else if containsSub step "relationship" || containsSub message "relationship" || d.agent == some "Relationship Agent" then "relationship_mapping"
    else if containsSub step "quality" || containsSub message "quality" || d.agent == some "Quality Agent" then "quality_planning"
    else if containsSub step "generation" || containsSub message "generating" then "data_generation"
    else if containsSub step "validation" || containsSub message "validating" then "quality_validation"
    else if containsSub step "assembly" || containsSub message "assembling" then "final_assembly"
    else if containsSub step "completion" || containsSub message "completed" then "completion"
    else if containsSub message "gemini" || d.agent == some "Gemini AI" then "gemini"
    else if d.progress == some (-1) || containsSub message "error" || containsSub message "failed" then "error"
    else "system"

/-- Transliteration of detectLogStatus of the RealTimeMonitor variant. -/
def detectLogStatus (d : LogData) : String :=
  if d.progress == some 100 then "completed"
  else if d.progress == some (-1) || d.level == some "error" then "error"
  else if (match d.progress with | some p => decide (0 < p) | none => false) then "in_progress"
  else if d.status == some "✅" then "completed"
  else if d.status == some "❌" then "error"
  else if d.status == some "⚠️" then "warning"
  else "started"

/-- Transliteration of detectAgent of the RealTimeMonitor variant (it
inspects only the message text). -/
def detectAgentR (d : LogData) : String :=
  let a := jsOrStr d.agent ""
  if a != "" then a
  else
    let message := jsToLower (jsOrStr d.message "")
    if containsSub message "domain expert" then "Domain Expert"
    else if containsSub message "privacy agent" then "Privacy Agent"
    else if containsSub message "bias detector" then "Bias Detector"
    else if containsSub message "quality agent" then "Quality Agent"
    else if containsSub message "relationship agent" then "Relationship Agent"
    else if containsSub message "gemini" || containsSub message "2.0 flash" then "Gemini AI"
    else "System"

/-- Transliteration of detectLevel of the RealTimeMonitor variant (true
emoji comparisons in that file). -/
def detectLevelR (d : LogData) : String :=
  let l := jsOrStr d.level ""
  if l != "" then l
  else if d.progress == some (-1) || d.status == some "❌" then "error"
  else if d.progress == some 100 || d.status == some "✅" then "success"
  else if d.status == some "⚠️" then "warning"
  else "info"

/-- Record assembly of the RealTimeMonitor variant (the newLog literal). -/
def mkRecordR (d : LogData) : ActivityRec :=
  { type := detectLogType d, status := detectLogStatus d,
    message := jsOrStr d.message "Processing...",
    agent := jsOrStr d.agent (detectAgentR d),
    level := jsOrStr d.level (detectLevelR d),
    progress := d.progress }

/-- SystemStatus snapshot of the unified monitor, flattened; the lastCheck
wall-clock timestamp is not modelled. -/
structure SystemStatus where
  backendHealthy : Bool := false
  responseTime : Int := 0
  geminiStatus : String := "unknown"
  geminiModel : String := "gemini-2.0-flash-exp"
  quotaPreserved : Bool := false
  agentsActive : Bool := false
  agentsTotal : Int := 5
  agentsOperational : Int := 0
  wsConnected : Bool := false
  wsStatus : String := "disconnected"
  deriving DecidableEq

/-- Health probe response shape consumed by checkSystemStatus, with the
optional nested service fields flattened. -/
structure HealthResponse where
  healthy : Bool := false
  geminiReady : Option String := none
  geminiModel : Option String := none
  quotaPreserved : Option Bool := none
  agents : Option String := none
  websockets : Option String := none
  deriving DecidableEq

/-- One poll tick of checkSystemStatus of the unified monitor: on a probe
response a fresh snapshot is built from the response, the live connection
flag and the measured latency; on a failed probe the previous snapshot is
kept with only the backend fields rewritten. -/
def checkTick (prev : SystemStatus) (res : Option HealthResponse)
    (conn : Bool) (rt : Int) : SystemStatus :=
  match res with
  | some h =>
    { backendHealthy := h.healthy, responseTime := rt,
      geminiStatus := if h.geminiReady == some "ready" then "online" else "offline",
      geminiModel := jsOrStr h.geminiModel "gemini-2.0-flash-exp",
      quotaPreserved := h.quotaPreserved.getD false,
      agentsActive := h.agents == some "active",
      agentsTotal := 5,
      agentsOperational := if h.agents == some "active" then 5 else 0,
      wsConnected := conn,
      wsStatus := jsOrStr h.websockets "unknown" }
  | none => { prev with backendHealthy := false, responseTime := 0 }

/-- Initial SystemStatus of a freshly mounted unified monitor. -/
def initialStatus : SystemStatus := {}

/-- Filter predicate of the unified monitor projection (the
filteredActivities computation): level exact-or-all, agent exact-or-all,
and a case-insensitive search over message or agent with the empty search
always passing. -/
def passesFilter (lvl ag term : String) (a : ActivityRec) : Bool :=
  (lvl == "all" || a.level == lvl) &&
  (ag == "all" || a.agent == ag) &&
  (term == "" || containsSub (jsToLower a.message) (jsToLower term)
    || containsSub (jsToLower a.agent) (jsToLower term))

/-- Read-only projection of the buffer through the filter criteria. -/
def filteredActivities (lvl ag term : String) (buf : List ActivityRec) : List ActivityRec :=
  buf.filter (passesFilter lvl ag term)

/-- List actually rendered by the unified monitor: the first 50 entries of
the filtered projection (filteredActivities.slice(0, 50)). -/
def renderedActivities (lvl ag term : String) (buf : List ActivityRec) : List ActivityRec :=
  (filteredActivities lvl ag term buf).take 50

/-- Default buffer capacity of the unified monitor (maxLogs = 100). -/
def defaultMaxLogs : Nat := 100

/-- Spec-side wording of the level criterion: exact match or the literal
all. -/
def SpecLevelOk (lvl : String) (a : ActivityRec) : Prop :=
  lvl = "all" ∨ a.level = lvl

/-- Spec-side wording of the agent criterion: exact match or the literal
all. -/
def SpecAgentOk (ag : String) (a : ActivityRec) : Prop :=
  ag = "all" ∨ a.agent = ag

/-- Spec-side wording of the search criterion: the empty search always
matches, otherwise the lowercased search text must occur contiguously in
the lowercased message or the lowercased agent. -/
def SpecSearchOk (term : String) (a : ActivityRec) : Prop :=
  term = "" ∨ (jsToLower term).data <:+: (jsToLower a.message).data
    ∨ (jsToLower term).data <:+: (jsToLower a.agent).data

/-- Sample record used by concrete witnesses: the matching record of the
projection example in the spec. -/
def recPrivacy : ActivityRec :=
  { type := "privacy_assessment", status := "completed",
    message := "Privacy score 98", agent := "Privacy Agent",
    level := "success", progress := some 80 }

/-- Sample record used by concrete witnesses: a non-matching record. -/
def recOther : ActivityRec :=
  { type := "system", status := "started", message := "boot",
    agent := "System", level := "info" }

/-- Sample generation_update event used by concrete witnesses. -/
def sampleGenMsg : WsMessage :=
  { kind := "generation_update",
    data := some { progress := some 40, message := some "working" } }

/-- State of a mounted unified monitor including the retained transport
message: the useWebSocket hook keeps the most recent inbound message in
component state, and the processing effect reads that retained value on
every execution, not an event argument. -/
structure ReactState where
  activities : List ActivityRec := []
  currentProgress : Int := 0
  isPaused : Bool := false
  lastMessage : Option WsMessage := none
  deriving DecidableEq

/-- One execution of the message-processing effect of the unified monitor:
the guard returns when no message is retained or the pause gate is set;
otherwise the retained message is normalized, classified, appended with
eviction, and the gauge rule is applied. -/
def effectBody (C : Nat) (s : ReactState) : ReactState :=
  match s.lastMessage with
  | none => s
  | some m =>
    if s.isPaused then s
    else
      match normalizeEventU m with
      | none => s
      | some d =>
        { s with activities := bufAppend C s.activities (mkRecord d),
                 currentProgress := gaugeStepU s.currentProgress d.progress }

/-- External triggers with the re-execution semantics of the effect
dependency array (lastMessage and isPaused; maxLogs and autoScroll are
constant here): a delivery stores the message and runs the effect; setting
the pause flag to a different value re-runs the effect on the retained
message (a write of the unchanged value is skipped); clear rewrites only
the list and the gauge, which are not dependencies, so no re-run happens. -/
def stepReact (C : Nat) (s : ReactState) : MonOp → ReactState
  | .deliver m => effectBody C { s with lastMessage := some m }
  | .pause => if s.isPaused then s else effectBody C { s with isPaused := true }
  | .resume => if s.isPaused then effectBody C { s with isPaused := false } else s
  | .clear => { s with activities := [], currentProgress := 0 }

/-- Run of a unified monitor instance over a list of triggers. -/
def runReact (C : Nat) (s : ReactState) (ops : List MonOp) : ReactState :=
  ops.foldl (stepReact C) s

/-- Sample field set of an event delivered while the gate is set, used by
concrete counterexamples and witnesses. -/
def pausedData : LogData :=
  { message := some "arrived while paused", progress := some 77 }

/-- Sample event delivered while the gate is set. -/
def pausedMsg : WsMessage :=
  { kind := "generation_update", data := some pausedData }

theorem headMatches_iff : ∀ (pat s : List Char), headMatches pat s = true ↔ ∃ t, pat ++ t = s := by
  intro pat
  induction pat with
  | nil => intro s; simp [headMatches]
  | cons c cs ih =>
    intro s
    cases s with
    | nil => simp [headMatches]
    | cons d ds =>
      simp only [headMatches, Bool.and_eq_true, beq_iff_eq, ih ds, List.cons_append,
        List.cons.injEq]
      constructor
      · rintro ⟨h1, t, h2⟩; exact ⟨t, h1, h2⟩
      · rintro ⟨t, h1, h2⟩; exact ⟨h1, t, h2⟩

theorem subAt_iff (pat : List Char) : ∀ s, subAt pat s = true ↔ ∃ u t, u ++ pat ++ t = s := by
  intro s
  induction s with
  | nil =>
    simp only [subAt, headMatches_iff]
    constructor
    · rintro ⟨t, h⟩; exact ⟨[], t, h⟩
    · rintro ⟨u, t, h⟩
      cases u with
      | nil => exact ⟨t, by simpa using h⟩
      | cons x u => simp at h
  | cons d ds ih =>
    simp only [subAt, Bool.or_eq_true, headMatches_iff, ih]
    constructor
    · rintro (⟨t, h⟩ | ⟨u, t, h⟩)
      · exact ⟨[], t, by simpa using h⟩
      · exact ⟨d :: u, t, by simp [← h]⟩
    · rintro ⟨u, t, h⟩
      cases u with
      | nil => exact Or.inl ⟨t, by simpa using h⟩
      | cons x u =>
        simp only [List.cons_append] at h
        injection h with h1 h2
        exact Or.inr ⟨u, t, h2⟩

theorem containsSub_iff (hay pat : String) :
    containsSub hay pat = true ↔ pat.data <:+: hay.data :=
  subAt_iff pat.data hay.data

theorem runPatterns_first : ∀ (ps : List PatternRow) (msg : String) (i : Nat)
    (rx : Regex) (ex : List String → String → LogData) (g : List String),
    (∀ p ∈ ps.take i, searchStr p.1 msg = none) →
    ps.get? i = some (rx, ex) →
    searchStr rx msg = some g →
    runPatterns ps msg = some (ex g msg) := by
  intro ps
  induction ps with
  | nil => intro msg i rx ex g _ h2 _; simp at h2
  | cons p ps ih =>
    obtain ⟨a, b⟩ := p
    intro msg i rx ex g h1 h2 h3
    cases i with
    | zero =>
      simp only [List.get?_cons_zero, Option.some.injEq, Prod.mk.injEq] at h2
      rcases h2 with ⟨rfl, rfl⟩
      simp [runPatterns, h3]
    | succ i =>
      have hhead : searchStr a msg = none := by
        have := h1 (a, b) (by simp [List.take_succ_cons])
        simpa using this
      have htail : ∀ p ∈ ps.take i, searchStr p.1 msg = none := by
        intro p hp
        exact h1 p (by simp [List.take_succ_cons, hp])
      simp only [List.get?_cons_succ] at h2
      simp only [runPatterns, hhead]
      exact ih msg i rx ex g htail h2 h3

theorem bufAppend_take (C : Nat) (hC : 1 ≤ C) (acc : List ActivityRec) (r : ActivityRec) :
    bufAppend C (acc.take C) r = (r :: acc).take C := by
  obtain ⟨D, rfl⟩ : ∃ D, C = D + 1 := ⟨C - 1, (Nat.succ_pred_eq_of_pos hC).symm⟩
  simp [bufAppend, List.take_take, Nat.min_eq_left (Nat.le_succ D)]

theorem foldl_bufAppend (C : Nat) (hC : 1 ≤ C) :
    ∀ (rs : List ActivityRec) (acc : List ActivityRec),
      rs.foldl (bufAppend C) (acc.take C) = (rs.reverse ++ acc).take C := by
  intro rs
  induction rs with
  | nil => intro acc; simp
  | cons r rs ih =>
    intro acc
    simp only [List.foldl_cons, bufAppend_take C hC acc r, ih (r :: acc),
      List.reverse_cons, List.append_assoc, List.singleton_append]

theorem passes_iff (lvl ag term : String) (a : ActivityRec) :
    passesFilter lvl ag term a = true ↔
      SpecLevelOk lvl a ∧ SpecAgentOk ag a ∧ SpecSearchOk term a := by
  simp only [passesFilter, SpecLevelOk, SpecAgentOk, SpecSearchOk, Bool.and_eq_true,
    Bool.or_eq_true, beq_iff_eq, containsSub_iff]
  tauto

/-- C1: for every sequence of accepted appends of n records with capacity C
at least 1, the buffer equals the most recent min(n, C) accepted records in
reverse arrival order (newest first), and in particular its length is
min(n, C), which never exceeds C.  Quantifying over every append sequence
covers every intermediate state.  The unified monitor instantiates C with
maxLogs (default 100), the SimpleRealTimeMonitor variant with 50. -/
theorem unified_buffer_invariant (C : Nat) (hC : 1 ≤ C) (rs : List ActivityRec) :
    bufOfList C rs = rs.reverse.take C ∧
    (bufOfList C rs).length = min rs.length C ∧
    (bufOfList C rs).length ≤ C := by
  have h : bufOfList C rs = rs.reverse.take C := by
    have := foldl_bufAppend C hC rs []
    simpa [bufOfList] using this
  refine ⟨h, ?_, ?_⟩
  · simp [h, List.length_take, Nat.min_comm]
  · simp only [h, List.length_take]
    omega

/-- Witness for C1 at capacity 2 and three appended records. -/
theorem unified_buffer_invariant_witness :
    bufOfList 2 [recOther, recPrivacy, recOther] =
      [recOther, recPrivacy, recOther].reverse.take 2 ∧
    (bufOfList 2 [recOther, recPrivacy, recOther]).length = min 3 2 ∧
    (bufOfList 2 [recOther, recPrivacy, recOther]).length ≤ 2 :=
  unified_buffer_invariant 2 (by decide) [recOther, recPrivacy, recOther]

/-- C2: free-text normalization tries the fixed pattern table in strict
priority order and only the first matching pattern applies; on the line
with the bracketed 40 percent prefix both the RealTimeMonitor table and
the unified table yield the bracketed-progress extraction (progress 40,
step Domain Analysis, message scanning columns, tagged progress), never
any labeled-agent extraction. -/
theorem pattern_priority_first_match :
    (∀ (msg : String) (i : Nat) (rx : Regex) (ex : List String → String → LogData)
        (g : List String),
        (∀ p ∈ rtmTable.take i, searchStr p.1 msg = none) →
        rtmTable.get? i = some (rx, ex) →
        searchStr rx msg = some g →
        runPatterns rtmTable msg = some (ex g msg)) ∧
    normalizeFreetextR "[40%] Domain Analysis: scanning columns" =
      { progress := some 40, step := some "Domain Analysis",
        message := some "scanning columns", tag := some "progress" } ∧
    normalizeFreetextU "[40%] Domain Analysis: scanning columns" =
      { progress := some 40, step := some "Domain Analysis",
        message := some "scanning columns", tag := some "progress" } :=
  ⟨fun msg i rx ex g h1 h2 h3 => runPatterns_first rtmTable msg i rx ex g h1 h2 h3,
   rfl, rfl⟩

/-- Witness for C2: the first-match dispatch applied at row 0 on the
concrete line. -/
theorem pattern_priority_first_match_witness :
    runPatterns rtmTable "[40%] Domain Analysis: scanning columns" =
      some { progress := some 40, step := some "Domain Analysis",
             message := some "scanning columns", tag := some "progress" } :=
  pattern_priority_first_match.1 "[40%] Domain Analysis: scanning columns" 0 _ _ _
    (by intro p hp; simp at hp) rfl rfl

/-- C3 counterexample: in the SimpleRealTimeMonitor variant an accepted
generation_update record carrying progress -1 overwrites the gauge (there
is no at-least-0 guard in that file), so a record with progress -1 does
change the gauge, contrary to the claim. -/
theorem progress_gauge_counterexample :
    (handleMessageS { activities := [], currentProgress := 50, isPaused := false }
        { kind := "generation_update",
          data := some { progress := some (-1), message := some "agent failed" }
        }).currentProgress = -1 ∧
    ((-1 : Int) ≠ 50) :=
  ⟨rfl, by decide⟩

/-- C3 amended: in the unified monitor the gauge is overwritten exactly
when the accepted record carries a progress value at least 0 (absent or
negative progress leaves it unchanged); in the SimpleRealTimeMonitor
variant any present progress value, including -1, overwrites the gauge;
in both, the gauge is only ever overwritten by a newer observation or
reset to 0 by clear. -/
theorem progress_gauge_update_rule (C : Nat) (s : MonitorState) (t : SimpleState)
    (d : LogData) (hs : s.isPaused = false) (ht : t.isPaused = false) :
    (handleMessageU C s { kind := "generation_update", data := some d }).currentProgress
      = gaugeStepU s.currentProgress d.progress ∧
    (∀ v : Int, 0 ≤ v → gaugeStepU s.currentProgress (some v) = v) ∧
    (∀ v : Int, v < 0 → gaugeStepU s.currentProgress (some v) = s.currentProgress) ∧
    gaugeStepU s.currentProgress none = s.currentProgress ∧
    (handleMessageS t { kind := "generation_update", data := some d }).currentProgress
      = d.progress.getD t.currentProgress ∧
    (stepU C s MonOp.clear).currentProgress = 0 := by
  refine ⟨?_, ?_, ?_, rfl, ?_, rfl⟩
  · simp [handleMessageU, normalizeEventU, hs]
  · intro v hv; simp [gaugeStepU, hv]
  · intro v hv
    have : ¬ (0 : Int) ≤ v := by omega
    simp [gaugeStepU, this]
  · simp [handleMessageS, normalizeEventS, ht]

/-- Witness for C3 amended at a concrete state and record. -/
theorem progress_gauge_update_rule_witness :
    (handleMessageU 3 {}
        { kind := "generation_update", data := some { progress := some 70 } }
      ).currentProgress = 70 :=
  (progress_gauge_update_rule 3 {} {} { progress := some 70 } rfl rfl).1

/-- C4 counterexample: classifying the free-text error line in the unified
monitor yields type system, because detectActivityType never consults the
error tag of the field set and the extracted message (the text after the
error keyword) contains no error keyword; so the line does not produce
type error, level error and status error as claimed. -/
theorem error_line_type_counterexample :
    (mkRecord (normalizeFreetextU "Error: connection refused")).type = "system" ∧
    ¬ ((mkRecord (normalizeFreetextU "Error: connection refused")).type = "error" ∧
       (mkRecord (normalizeFreetextU "Error: connection refused")).level = "error" ∧
       (mkRecord (normalizeFreetextU "Error: connection refused")).status = "error") :=
  ⟨rfl, by decide⟩

/-- C4 amended: the error line classifies with level error and status
error in the unified monitor but with type system there; in the
RealTimeMonitor variant (whose detectLogType returns the truthy type tag
of the field set unchanged) the same line classifies as type error, level
error and status error. -/
theorem error_line_classification :
    (mkRecord (normalizeFreetextU "Error: connection refused")).level = "error" ∧
    (mkRecord (normalizeFreetextU "Error: connection refused")).status = "error" ∧
    (mkRecord (normalizeFreetextU "Error: connection refused")).type = "system" ∧
    (mkRecordR (normalizeFreetextR "Error: connection refused")).type = "error" ∧
    (mkRecordR (normalizeFreetextR "Error: connection refused")).level = "error" ∧
    (mkRecordR (normalizeFreetextR "Error: connection refused")).status = "error" :=
  ⟨rfl, rfl, rfl, rfl, rfl, rfl⟩

/-- C5 counterexample: in the concrete trace deliver, pause, deliver,
resume the second delivery arrives while the gate is set and appends
nothing at arrival, yet resuming re-runs the effect on the retained
message (isPaused is in the effect dependency array), so a record derived
from that paused event heads the buffer after resume, contradicting the
claim that no record derived from it is ever appended. -/
theorem paused_event_replayed_counterexample :
    (runReact 5 {} [MonOp.deliver sampleGenMsg, MonOp.pause]).isPaused = true ∧
    (runReact 5 {} [MonOp.deliver sampleGenMsg, MonOp.pause,
        MonOp.deliver pausedMsg]).activities
      = (runReact 5 {} [MonOp.deliver sampleGenMsg, MonOp.pause]).activities ∧
    (runReact 5 {} [MonOp.deliver sampleGenMsg, MonOp.pause, MonOp.deliver pausedMsg,
        MonOp.resume]).activities.head?
      = some (mkRecord pausedData) :=
  ⟨rfl, rfl, rfl⟩

/-- C5 amended: an event delivered while the pause gate is set is
discarded at arrival (only the retained message changes, no record is
appended then) and paused events are never queued (a paused delivery that
is superseded by a later delivery before anything else happens contributes
nothing to any later state); but the single most recently retained event
is re-processed when the gate clears, so on resume a record derived from
the last event that arrived during pause is appended once, with eviction
and the gauge rule. -/
theorem pause_replay_rule (C : Nat) (s : ReactState) (m m2 : WsMessage) (d : LogData)
    (h : s.isPaused = true) :
    stepReact C s (MonOp.deliver m) = { s with lastMessage := some m } ∧
    (∀ ops : List MonOp,
      runReact C s (MonOp.deliver m :: MonOp.deliver m2 :: ops)
        = runReact C s (MonOp.deliver m2 :: ops)) ∧
    (normalizeEventU m = some d →
      stepReact C { s with lastMessage := some m } MonOp.resume =
        { s with lastMessage := some m, isPaused := false,
                 activities := bufAppend C s.activities (mkRecord d),
                 currentProgress := gaugeStepU s.currentProgress d.progress }) := by
  have hdrop : stepReact C s (MonOp.deliver m) = { s with lastMessage := some m } := by
    cases hm : normalizeEventU m <;> simp [stepReact, effectBody, h, hm]
  refine ⟨hdrop, ?_, ?_⟩
  · intro ops
    have hdrop2 : stepReact C { s with lastMessage := some m } (MonOp.deliver m2)
        = { s with lastMessage := some m2 } := by
      cases hm : normalizeEventU m2 <;> simp [stepReact, effectBody, h, hm]
    have hdrop3 : stepReact C s (MonOp.deliver m2) = { s with lastMessage := some m2 } := by
      cases hm : normalizeEventU m2 <;> simp [stepReact, effectBody, h, hm]
    simp [runReact, hdrop, hdrop2, hdrop3]
  · intro hd
    simp [stepReact, effectBody, h, hd]

/-- Witness for C5 amended: resuming a paused state holding a retained
generation_update event appends the record derived from it. -/
theorem pause_replay_rule_witness :
    stepReact 5 { isPaused := true, lastMessage := some pausedMsg } MonOp.resume =
      { isPaused := false, lastMessage := some pausedMsg,
        activities := [mkRecord pausedData], currentProgress := 77 } :=
  (pause_replay_rule 5 { isPaused := true } pausedMsg sampleGenMsg pausedData rfl).2.2 rfl

/-- C6 counterexample: a failed poll tick keeps the gemini field of the
previous snapshot while rewriting the backend fields, so that tick is a
partial update, not a wholesale replacement; two previous snapshots that
differ only in their gemini field produce different outputs on the same
failed tick. -/
theorem status_tick_partial_counterexample :
    (checkTick { initialStatus with geminiStatus := "online" } none true 5).geminiStatus
      = "online" ∧
    (checkTick { initialStatus with geminiStatus := "offline" } none true 5).geminiStatus
      = "offline" ∧
    checkTick { initialStatus with geminiStatus := "online" } none true 5 ≠
      checkTick { initialStatus with geminiStatus := "offline" } none true 5 ∧
    (checkTick { initialStatus with geminiStatus := "online" } none true 5).backendHealthy
      = false :=
  ⟨rfl, rfl, by decide, rfl⟩

/-- C6 amended: a successful poll tick replaces the snapshot wholesale
(its output does not depend on the previous snapshot at all), while a
failed tick rewrites exactly the backend fields (healthy false, latency 0)
and keeps every other field from the previous snapshot. -/
theorem status_tick_update_rule :
    (∀ (h : HealthResponse) (conn : Bool) (rt : Int) (p q : SystemStatus),
        checkTick p (some h) conn rt = checkTick q (some h) conn rt) ∧
    (∀ (p : SystemStatus) (conn : Bool) (rt : Int),
        checkTick p none conn rt = { p with backendHealthy := false, responseTime := 0 }) :=
  ⟨fun _ _ _ _ _ => rfl, fun _ _ _ => rfl⟩

/-- C7: while the pause gate is set, handling any generation_update record
is a no-op on the whole state (buffer and gauge included); after resume,
handling the same record appends normally, prepending the classified
record with eviction and applying the gauge rule. -/
theorem pause_gate_frame (C : Nat) (s : MonitorState) (d : LogData) :
    (s.isPaused = true →
      handleMessageU C s { kind := "generation_update", data := some d } = s) ∧
    handleMessageU C { s with isPaused := false }
        { kind := "generation_update", data := some d } =
      { s with isPaused := false,
               activities := bufAppend C s.activities (mkRecord d),
               currentProgress := gaugeStepU s.currentProgress d.progress } := by
  constructor
  · intro h; simp [handleMessageU, h]
  · simp [handleMessageU, normalizeEventU]

/-- Witness for C7: a paused state is left unchanged by a delivery. -/
theorem pause_gate_frame_witness :
    handleMessageU 2 { activities := [recOther], currentProgress := 10, isPaused := true }
        { kind := "generation_update", data := some { progress := some 70 } } =
      { activities := [recOther], currentProgress := 10, isPaused := true } :=
  (pause_gate_frame 2 { activities := [recOther], currentProgress := 10, isPaused := true }
      { progress := some 70 }).1 rfl

/-- C8 counterexample: an event that is neither a generation_update with a
payload nor carries a truthy message yields no field set at all; the state
is left unchanged and no record (in particular no minimal fallback record
with the Processing placeholder) is appended, contrary to the claim that
normalization always yields a record for every inbound event. -/
theorem unparseable_event_counterexample :
    normalizeEventU { kind := "raw", data := some {} } = none ∧
    handleMessageU 100 {} { kind := "raw", data := some {} } = {} ∧
    (handleMessageU 100 {} { kind := "raw", data := some {} }).activities = [] :=
  ⟨rfl, rfl, rfl⟩

/-- C8 amended: normalization is a total function (it never raises): a
free-text message matching no pattern yields a field set carrying the
entire raw text (and the resulting record keeps that text as its message
when it is nonempty); a field set lacking a truthy message yields a record
with the Processing placeholder; and an event interpretable as neither
shape yields no field set and leaves the state unchanged, rather than a
fallback record. -/
theorem normalization_total_rule (msg : String) (d : LogData) (C : Nat)
    (s : MonitorState) (m : WsMessage) :
    (runPatterns unifiedTable msg = none →
        normalizeFreetextU msg = { message := some msg, tag := some "system" }) ∧
    (msg ≠ "" → runPatterns unifiedTable msg = none →
        (mkRecord (normalizeFreetextU msg)).message = msg) ∧
    (d.message = none ∨ d.message = some "" → (mkRecord d).message = "Processing...") ∧
    (normalizeEventU m = none → handleMessageU C s m = s) := by
  refine ⟨?_, ?_, ?_, ?_⟩
  · intro h; simp [normalizeFreetextU, h]
  · intro hne h
    simp [normalizeFreetextU, h, mkRecord, jsOrStr, hne]
  · rintro (h | h) <;> simp [mkRecord, jsOrStr, h]
  · intro h
    cases hp : s.isPaused <;> simp [handleMessageU, h, hp]

/-- Witness for C8 amended: a plain unmatched message keeps its text, and
a shapeless event leaves the initial state unchanged. -/
theorem normalization_total_rule_witness :
    (mkRecord (normalizeFreetextU "hello world")).message = "hello world" ∧
    handleMessageU 100 {} { kind := "status", data := none } = {} :=
  ⟨(normalization_total_rule "hello world" {} 100 {}
      { kind := "status", data := none }).2.1 (by decide) rfl,
   (normalization_total_rule "hello world" {} 100 {}
      { kind := "status", data := none }).2.2.2 rfl⟩

/-- C9: the projection returns exactly the records satisfying every
criterion, stated against spec-worded predicates (level exact-or-all,
agent exact-or-all, case-insensitive substring search over message or
agent with the empty search always passing), and it is a sublist of the
buffer, hence preserves the buffer order. -/
theorem filter_projection_exact (lvl ag term : String) (buf : List ActivityRec) :
    List.Sublist (filteredActivities lvl ag term buf) buf ∧
    ∀ a : ActivityRec, a ∈ filteredActivities lvl ag term buf ↔
      a ∈ buf ∧ SpecLevelOk lvl a ∧ SpecAgentOk ag a ∧ SpecSearchOk term a := by
  constructor
  · exact List.filter_sublist buf
  · intro a
    have hp := passes_iff lvl ag term a
    simp only [filteredActivities, List.mem_filter]
    constructor
    · rintro ⟨h1, h2⟩; exact ⟨h1, hp.mp h2⟩
    · rintro ⟨h1, h2⟩; exact ⟨h1, hp.mpr h2⟩

/-- Witness for C9: the spec example, a matching record passes the agent
and search criteria and is in the projection. -/
theorem filter_projection_exact_witness :
    recPrivacy ∈ filteredActivities "all" "Privacy Agent" "score" [recPrivacy, recOther] :=
  ((filter_projection_exact "all" "Privacy Agent" "score" [recPrivacy, recOther]).2
      recPrivacy).mpr
    ⟨List.mem_cons_self recPrivacy [recOther], Or.inl rfl, Or.inr rfl,
     Or.inr (Or.inl ((containsSub_iff (jsToLower recPrivacy.message)
        (jsToLower "score")).mp rfl))⟩

/-- C10: the rendered list is the first 50 entries of the filtered
projection (so at most 50 records are displayed) while the buffer default
capacity is 100; the rendered list is a prefix of the projection and every
projected record, displayed or not, remains in the buffer. -/
theorem rendered_cap (lvl ag term : String) (buf : List ActivityRec) :
    defaultMaxLogs = 100 ∧
    renderedActivities lvl ag term buf = (filteredActivities lvl ag term buf).take 50 ∧
    (renderedActivities lvl ag term buf).length ≤ 50 ∧
    (renderedActivities lvl ag term buf) <+: filteredActivities lvl ag term buf ∧
    (∀ a ∈ filteredActivities lvl ag term buf, a ∈ buf) := by
  refine ⟨rfl, rfl, ?_, ?_, ?_⟩
  · simp only [renderedActivities, List.length_take]
    omega
  · exact ⟨(filteredActivities lvl ag term buf).drop 50, List.take_append_drop 50 _⟩
  · intro a ha
    exact (List.mem_filter.mp ha).1

/-- Witness for C10: a projected record is retained in the buffer. -/
theorem rendered_cap_witness :
    recPrivacy ∈ [recPrivacy, recOther] :=
  (rendered_cap "all" "all" "" [recPrivacy, recOther]).2.2.2.2 recPrivacy (by decide)

end DataGenesis
